import Mathlib

/-!
Verification of the zactuator Zabbix client core against its
natural-language specification.

The development shallowly embeds the Python source:
pure functions become Lean functions; methods that mutate the client
object become explicit state passing over small state structures;
Python exceptions become an `Except PyErr` result; HTTP traffic is
modelled by an environment function from the request history and the
request body to the response body, with the list of issued requests
recorded in the state so that theorems can count them.
-/

/-! ## A small model of Python/JSON values

`json.loads` produces nested dicts, lists, strings, numbers, booleans
and None.  Dict field order is kept, since Python dicts preserve
insertion order. -/

inductive JVal where
  | jnull : JVal
  | jbool : Bool → JVal
  | jnum : Int → JVal
  | jstr : String → JVal
  | jarr : List JVal → JVal
  | jobj : List (String × JVal) → JVal

/-- Python exceptions that the embedded code can raise or catch. -/
inductive PyErr where
  | keyError : JVal → PyErr
  | typeError : PyErr
  | valueError : PyErr

mutual
/-- Python `repr` of a JSON value (`str` of a dict/list renders elements
with `repr`, strings with single quotes).  String escaping corners are
not modelled; keys and values in the claims are plain text. -/
def pyRepr : JVal → String
  | .jnull => "None"
  | .jbool b => if b then "True" else "False"
  | .jnum n => toString n
  | .jstr s => "'" ++ s ++ "'"
  | .jarr xs => "[" ++ pyReprList xs ++ "]"
  | .jobj fs => "\x7b" ++ pyReprFields fs ++ "\x7d"

def pyReprList : List JVal → String
  | [] => ""
  | [x] => pyRepr x
  | x :: y :: xs => pyRepr x ++ ", " ++ pyReprList (y :: xs)

def pyReprFields : List (String × JVal) → String
  | [] => ""
  | [(k, v)] => "'" ++ k ++ "': " ++ pyRepr v
  | (k, v) :: y :: xs => "'" ++ k ++ "': " ++ pyRepr v ++ ", " ++ pyReprFields (y :: xs)
end

/-- Python `str` of a JSON value: a string renders without quotes,
anything else as its `repr` (as in f-string interpolation). -/
def pyStr (v : JVal) : String :=
  match v with
  | .jstr s => s
  | v => pyRepr v

mutual
/-- Python `==` on JSON values (structural). -/
def jeq : JVal → JVal → Bool
  | .jnull, .jnull => true
  | .jbool a, .jbool b => a == b
  | .jnum a, .jnum b => a == b
  | .jstr a, .jstr b => a == b
  | .jarr a, .jarr b => jeqList a b
  | .jobj a, .jobj b => jeqFields a b
  | _, _ => false

def jeqList : List JVal → List JVal → Bool
  | [], [] => true
  | a :: as_, b :: bs => jeq a b && jeqList as_ bs
  | _, _ => false

def jeqFields : List (String × JVal) → List (String × JVal) → Bool
  | [], [] => true
  | (k1, v1) :: as_, (k2, v2) :: bs => k1 == k2 && jeq v1 v2 && jeqFields as_ bs
  | _, _ => false
end

mutual
theorem jeq_refl : (v : JVal) → jeq v v = true
  | .jnull => rfl
  | .jbool b => by simp [jeq]
  | .jnum n => by simp [jeq]
  | .jstr s => by simp [jeq]
  | .jarr xs => by simp [jeq, jeqList_refl xs]
  | .jobj fs => by simp [jeq, jeqFields_refl fs]

theorem jeqList_refl : (l : List JVal) → jeqList l l = true
  | [] => rfl
  | a :: as_ => by simp [jeqList, jeq_refl a, jeqList_refl as_]

theorem jeqFields_refl : (l : List (String × JVal)) → jeqFields l l = true
  | [] => rfl
  | (k, v) :: as_ => by simp [jeqFields, jeq_refl v, jeqFields_refl as_]
end

/-- Python truthiness of a JSON value (`bool(x)`). -/
def pyTruthy (v : JVal) : Bool :=
  match v with
  | .jnull => false
  | .jbool b => b
  | .jnum n => !(n == 0)
  | .jstr s => !(s == "")
  | .jarr xs => !xs.isEmpty
  | .jobj fs => !fs.isEmpty

/-- `x[k]` on a JSON value: KeyError on a dict without the key,
TypeError when subscripting a non-dict with a string key. -/
def jget (v : JVal) (k : String) : Except PyErr JVal :=
  match v with
  | .jobj fs =>
    match fs.find? (fun p => p.1 == k) with
    | some p => .ok p.2
    | none => .error (.keyError (.jstr k))
  | _ => .error .typeError

/-- Does the second character list start with the first? -/
def leadsWith : List Char → List Char → Bool
  | [], _ => true
  | _ :: _, [] => false
  | a :: as_, b :: bs => a == b && leadsWith as_ bs

/-- Substring test on character lists (`needle in haystack`). -/
def strHasSub (needle : List Char) : List Char → Bool
  | [] => leadsWith needle []
  | c :: rest => leadsWith needle (c :: rest) || strHasSub needle rest

/-- Python `k in x`: key membership on dicts, element membership on
lists, substring test on strings, TypeError otherwise. -/
def pyIn (k : String) (v : JVal) : Except PyErr Bool :=
  match v with
  | .jobj fs => .ok (fs.any (fun p => p.1 == k))
  | .jarr xs => .ok (xs.any (fun x => match x with | .jstr s => s == k | _ => false))
  | .jstr s => .ok (strHasSub k.toList s.toList)
  | _ => .error .typeError

/-- Python iteration over a JSON value: a dict yields its keys, a
string its characters, a list its elements; TypeError otherwise. -/
def pyIter (v : JVal) : Except PyErr (List JVal)  :=
  match v with
  | .jarr xs => .ok xs
  | .jobj fs => .ok (fs.map (fun p => JVal.jstr p.1))
  | .jstr s => .ok (s.toList.map (fun c => JVal.jstr (String.mk [c])))
  | _ => .error .typeError

/-- Elements joined by `str.join` must all be strings (else TypeError). -/
def pyStrList : List JVal → Except PyErr (List String)
  | [] => .ok []
  | .jstr s :: rest => (pyStrList rest).map (fun l => s :: l)
  | _ :: _ => .error .typeError

/-- Python `sep.join(items)`. -/
def pyJoin (sep : String) (l : List JVal) : Except PyErr String :=
  (pyStrList l).map (String.intercalate sep)

/-- Python `int(x)`: ints pass through, booleans become 0/1, strings
are parsed (ValueError on failure), anything else is a TypeError. -/
def pyInt (v : JVal) : Except PyErr Int :=
  match v with
  | .jnum n => .ok n
  | .jbool b => .ok (if b then 1 else 0)
  | .jstr s =>
    match s.trim.toInt? with
    | some n => .ok n
    | none => .error .valueError
  | _ => .error .typeError

/-- `str` of the optional auth token (`str(None)` is the text None). -/
def pyStrOpt (a : Option JVal) : String :=
  match a with
  | none => "None"
  | some v => pyStr v

/-- Python truthiness of the optional auth token. -/
def pyTruthyOpt (a : Option JVal) : Bool :=
  match a with
  | none => false
  | some v => pyTruthy v

/-- Python `==` lifted to the optional auth token (None == None). -/
def jeqOpt (a b : Option JVal) : Bool :=
  match a, b with
  | none, none => true
  | some x, some y => jeq x y
  | _, _ => false

theorem jeqOpt_refl (a : Option JVal) : jeqOpt a a = true := by
  cases a with
  | none => rfl
  | some v => simpa [jeqOpt] using jeq_refl v

/-! ## Alert message parser (ZabbixIssueMessage, zabbix_main_client.py)

The source scans the text with the regular expression
`\[([\S]+?): ([\S\s]+?)\]` using `re.findall`.  The scan below mirrors
the regex engine on this pattern: at each position starting with `[`
the engine tries key lengths in ascending order (key characters must
be non-whitespace) until the literal colon-space boundary is found and
the lazy value (at least one arbitrary character, up to the nearest
following `]`) completes the match; failed positions advance by one
character, successful matches resume after the consumed text. -/

/-- Characters matched by a Python `\s` (ASCII range; the exotic
Unicode whitespace characters play no role in the claims). -/
def isPyWS (c : Char) : Bool :=
  c == ' ' || c == '\t' || c == '\n' || c == '\r' || c == '\x0b' || c == '\x0c'

/-- Split the input at the first `]`, returning the characters before
it and the remainder after it. -/
def splitAtClose : List Char → Option (List Char × List Char)
  | [] => none
  | c :: rest =>
    if c == ']' then some ([], rest)
    else (splitAtClose rest).map (fun p => (c :: p.1, p.2))

/-- The lazy group `([\S\s]+?)` followed by the literal `]`: one
unconditional character, then everything up to the nearest `]`. -/
def matchValue : List Char → Option (List Char × List Char)
  | [] => none
  | c :: rest => (splitAtClose rest).map (fun p => (c :: p.1, p.2))

/-- The lazy key group `([\S]+?)` with its `: ` boundary: key lengths
are tried in ascending order (regex backtracking), characters must be
non-whitespace, and the remainder after the boundary must contain a
complete value match. -/
def keySearch (acc : List Char) : List Char → Option (List Char × List Char × List Char)
  | [] => none
  | c :: rest =>
    if isPyWS c then none
    else
      match rest with
      | ':' :: ' ' :: rest2 =>
        match matchValue rest2 with
        | some (v, rest3) => some (acc ++ [c], v, rest3)
        | none => keySearch (acc ++ [c]) rest
      | _ => keySearch (acc ++ [c]) rest

/-- Try to match the tag pattern directly after an opening `[`. -/
def matchAt (l : List Char) : Option (List Char × List Char × List Char) :=
  keySearch [] l

/-- One `re.findall` scan.  Fuel is structural bookkeeping only: every
step consumes at least one character, so `scanTags` below supplies
enough fuel for the whole input. -/
def scanTagsFuel : Nat → List Char → List (String × String)
  | 0, _ => []
  | Nat.succ fuel, l =>
    match l with
    | [] => []
    | c :: rest =>
      if c == '[' then
        match matchAt rest with
        | some (k, v, rest2) => (String.mk k, String.mk v) :: scanTagsFuel fuel rest2
        | none => scanTagsFuel fuel rest
      else scanTagsFuel fuel rest

/-- All `[key: value]` tags of the text, in scan order
(`re.findall(pattern, text)`). -/
def scanTags (text : String) : List (String × String) :=
  scanTagsFuel text.toList.length text.toList

/-- Python `str.lower` (ASCII; sufficient for the claims). -/
def strLower (s : String) : String := String.mk (s.toList.map Char.toLower)

/-! Ordered dictionary with Python dict semantics: assignment to an
existing key overwrites in place (keeping its position), a new key is
appended.  This models both the dict comprehension in `_parse_message`
and the `UserDict` data that backs `ZabbixIssueMessage`. -/

def dictInsert (d : List (String × String)) (k v : String) : List (String × String) :=
  if d.any (fun p => p.1 == k) then d.map (fun p => if p.1 == k then (k, v) else p)
  else d ++ [(k, v)]

def dictLookup (d : List (String × String)) (k : String) : Option String :=
  (d.find? (fun p => p.1 == k)).map (fun p => p.2)

def buildDict (l : List (String × String)) : List (String × String) :=
  l.foldl (fun d p => dictInsert d p.1 p.2) []

/-- `ZabbixIssueMessage._parse_message`: find all tags, lowercase the
keys in a dict comprehension (later occurrences overwrite earlier
ones), and store the result in the (initially empty) mapping. -/
def _parse_message (text : String) : List (String × String) :=
  buildDict ((scanTags text).map (fun p => (strLower p.1, p.2)))

/-- `ZabbixIssueMessage.__getattr__`: `self.setdefault(item, "")` —
return the stored value, or insert the empty string under the missing
key and return it. -/
def msgGetattr (d : List (String × String)) (k : String) : String × List (String × String) :=
  match dictLookup d k with
  | some v => (v, d)
  | none => ("", d ++ [(k, "")])

/-! ## Session manager (ZabbixMainClient.authorised_required)

The decorator wraps a protected call over the two abstract client
primitives `is_authorised` and `zabbix_login`.  Client methods mutate
the client object, so the primitives and the wrapped call are state
transformers over an abstract state; `AuthorisedException` becomes the
error of an `Except`.  The attribute plumbing that chooses between
`self.zabbix_client` and `self` selects which object supplies the two
primitives and is resolved by instantiation. -/

def authorised_required {σ ρ : Type} (is_authorised_m : σ → Bool × σ)
    (zabbix_login_m : σ → σ) (method : σ → ρ × σ) (auto_login : Bool) (s : σ) :
    Except Unit ρ × σ :=
  match is_authorised_m s with
  | (true, s1) =>
    let r := method s1
    (.ok r.1, r.2)
  | (false, s1) =>
    if auto_login then
      let s2 := zabbix_login_m s1
      match is_authorised_m s2 with
      | (false, s3) => (.error (), s3)
      | (true, s3) =>
        let r := method s3
        (.ok r.1, r.2)
    else (.error (), s1)

/-- Observable authentication events, used to count login attempts and
wrapped-call invocations without touching the wrapper definition. -/
inductive AuthEvent where
  | loginEv : AuthEvent
  | callEv : AuthEvent
deriving DecidableEq

/-- Run `authorised_required` (with the default `auto_login=True`, as
in every use site) over event-instrumented primitives: the login
primitive appends a login event, the wrapped call appends a call
event, the authentication check appends nothing. -/
def authTraceRun {σ ρ : Type} (isA : σ → Bool × σ) (lg : σ → σ) (mth : σ → ρ × σ)
    (s : σ) : Except Unit ρ × (σ × List AuthEvent) :=
  authorised_required
    (fun p => ((isA p.1).1, ((isA p.1).2, p.2)))
    (fun p => (lg p.1, p.2 ++ [AuthEvent.loginEv]))
    (fun p => ((mth p.1).1, ((mth p.1).2, p.2 ++ [AuthEvent.callEv])))
    true (s, [])

/-! ## JSON-RPC API client (ZabbixApiClient, zabbix_api_client.py)

Client state: the stored auth token (`self.auth`, None after
construction), plus the transport-side record of issued requests and
the warning-level log.  The HTTP backend is an environment mapping the
request history and the request body to the response body. -/

structure ApiCfg where
  username : String
  password : String

structure ApiState where
  auth : Option JVal
  sent : List JVal
  warnings : List String

/-- The backend: a response body for each request, possibly depending
on the requests sent so far. -/
abbrev ZbxEnv := List JVal → JVal → JVal

/-- `ZabbixApiClient._set_auth`: stores the token.  The source assigns
(and logs at info level) only when the value changes; the resulting
token is the argument in both branches, and info-level logs are not
modelled, so the conditional collapses. -/
def set_auth (a : Option JVal) (s : ApiState) : ApiState := { s with auth := a }

/-- Modelled from the spec: the template file user_login.json is not
under src.  Section 6 of the spec gives the RPC body
(jsonrpc, method, params, id; auth omitted for the login call itself),
and `zabbix_login` fills params.user and params.password. -/
def loginRequest (username password : String) : JVal :=
  .jobj [("jsonrpc", .jstr "2.0"), ("method", .jstr "user.login"),
         ("params", .jobj [("user", .jstr username), ("password", .jstr password)]),
         ("id", .jnum 1)]

/-- Modelled from the spec: the template file check_authentication.json
is not under src.  The spec describes a session check call whose
params.sessionid is the stored token and whose result.sessionid is
compared against it; `_check_authentication` fills params.sessionid. -/
def checkAuthRequest (sessionid : String) : JVal :=
  .jobj [("jsonrpc", .jstr "2.0"), ("method", .jstr "user.checkAuthentication"),
         ("params", .jobj [("sessionid", .jstr sessionid)]),
         ("id", .jnum 1)]

/-- `ZabbixApiClient.post_to_zabbix_api` with `error_handling=False`:
send the request, parse the body, log a present error at warning
level, and return the body.  (The general entry point with the
`error_handling` flag is `post_to_zabbix_api` below; the recovery
path reaches the backend only through this non-handling variant,
which is what makes the mutual recursion of the source bottom out.) -/
def post_noh (env : ZbxEnv) (req : JVal) (s : ApiState) : Except PyErr JVal × ApiState :=
  let body := env s.sent req
  let s1 : ApiState := { s with sent := s.sent ++ [req] }
  match pyIn "error" body with
  | .error e => (.error e, s1)
  | .ok true =>
    match jget body "error" with
    | .error e => (.error e, s1)
    | .ok err => (.ok body, { s1 with warnings := s1.warnings ++ [pyStr err] })
  | .ok false => (.ok body, s1)

/-- `ZabbixApiClient.zabbix_login`: post the login template with error
handling disabled, then store the token from the result field, or log
LOGIN FAILED! and store None when the field is absent. -/
def zabbix_login (env : ZbxEnv) (cfg : ApiCfg) (s : ApiState) : Except PyErr Unit × ApiState :=
  let req := loginRequest cfg.username cfg.password
  match post_noh env req s with
  | (.error e, s1) => (.error e, s1)
  | (.ok body, s1) =>
    match jget body "result" with
    | .ok v => (.ok (), set_auth (some v) s1)
    | .error (.keyError _) =>
      (.ok (), set_auth none { s1 with warnings := s1.warnings ++ ["LOGIN FAILED!"] })
    | .error e => (.error e, s1)

/-- `ZabbixApiClient.handle_error_response_form_zabbix`: dispatch on
the error code through the fixed recovery table (-32602 re-login,
-32500 clear the stored token); the dict lookup raises KeyError for
any other code. -/
def handle_error_response_form_zabbix (env : ZbxEnv) (cfg : ApiCfg) (error : JVal)
    (s : ApiState) : Except PyErr Unit × ApiState :=
  match jget error "code" with
  | .error e => (.error e, s)
  | .ok code =>
    match code with
    | .jnum n =>
      if n = -32602 then zabbix_login env cfg s
      else if n = -32500 then (.ok (), set_auth none s)
      else (.error (.keyError (.jnum n)), s)
    | other => (.error (.keyError other), s)

/-- `ZabbixApiClient.post_to_zabbix_api`: send the request, parse the
body, and when an error field is present log it and (with error
handling enabled) dispatch it through the recovery table before
returning the body. -/
def post_to_zabbix_api (env : ZbxEnv) (cfg : ApiCfg) (error_handling : Bool) (req : JVal)
    (s : ApiState) : Except PyErr JVal × ApiState :=
  let body := env s.sent req
  let s1 : ApiState := { s with sent := s.sent ++ [req] }
  match pyIn "error" body with
  | .error e => (.error e, s1)
  | .ok true =>
    match jget body "error" with
    | .error e => (.error e, s1)
    | .ok err =>
      let s2 : ApiState := { s1 with warnings := s1.warnings ++ [pyStr err] }
      if error_handling then
        match handle_error_response_form_zabbix env cfg err s2 with
        | (.ok _, s3) => (.ok body, s3)
        | (.error e, s3) => (.error e, s3)
      else (.ok body, s2)
  | .ok false => (.ok body, s1)

/-- `ZabbixApiClient._check_authentication`: post the session check
(params.sessionid is `str(self.auth)`) with error handling disabled,
extract result.sessionid (absence of either key is caught and yields
None), store the extracted value, and return it. -/
def _check_authentication (env : ZbxEnv) (s : ApiState) :
    Except PyErr (Option JVal) × ApiState :=
  let req := checkAuthRequest (pyStrOpt s.auth)
  match post_noh env req s with
  | (.error e, s1) => (.error e, s1)
  | (.ok body, s1) =>
    match jget body "result" with
    | .error (.keyError _) => (.ok none, set_auth none s1)
    | .error e => (.error e, s1)
    | .ok r =>
      match jget r "sessionid" with
      | .error (.keyError _) => (.ok none, set_auth none s1)
      | .error e => (.error e, s1)
      | .ok v => (.ok (some v), set_auth (some v) s1)

/-- `ZabbixApiClient.is_authorised`: run the session check, then
return `bool(self.auth) and (self.auth == auth)` for the returned
value `auth`. -/
def is_authorised (env : ZbxEnv) (s : ApiState) : Except PyErr Bool × ApiState :=
  match _check_authentication env s with
  | (.error e, s1) => (.error e, s1)
  | (.ok a, s1) => (.ok (pyTruthyOpt s1.auth && jeqOpt s1.auth a), s1)

/-! ## Web interface client (ZabbixWebInterfaceClient) -/

/-- A URL with a query string, as manipulated through yarl. -/
structure YUrl where
  path : String
  query : List (String × String)

/-- `yarl.URL.with_query`: replace the query entirely. -/
def YUrl.with_query (u : YUrl) (q : List (String × String)) : YUrl := { u with query := q }

/-- One GET request as issued by `httpx.AsyncClient.get`: the final
URL and the cookies attached. -/
structure WebGet where
  url : YUrl
  cookies : List (String × String)

/-- Web client state: the stored cookie jar and the storage directory
for saved images. -/
structure WebState where
  cookies : List (String × String)
  storage_dir : String

def b64chars : List Char :=
  "ABCDEFGHIJKLMNOPQRSTUVWXYZabcdefghijklmnopqrstuvwxyz0123456789+/".toList

def b64char (n : Nat) : Char := b64chars.getD n 'A'

/-- RFC 4648 base64 of a byte list (three bytes to four characters,
with padding), as computed by `base64.b64encode`.  Inputs are bytes,
reduced mod 256 for totality. -/
def b64encodeList : List Nat → List Char
  | [] => []
  | [a] =>
    let a := a % 256
    [b64char (a / 4), b64char (a % 4 * 16), '=', '=']
  | [a, b] =>
    let a := a % 256
    let b := b % 256
    [b64char (a / 4), b64char (a % 4 * 16 + b / 16), b64char (b % 16 * 4), '=']
  | a :: b :: c :: rest =>
    let a := a % 256
    let b := b % 256
    let c := c % 256
    b64char (a / 4) :: b64char (a % 4 * 16 + b / 16) :: b64char (b % 16 * 4 + c / 64) ::
      b64char (c % 64) :: b64encodeList rest

/-- `base64.b64encode(image).decode()`. -/
def b64encode (bytes : List Nat) : String := String.mk (b64encodeList bytes)

/-- `ZabbixWebInterfaceClient._get_graph_file_name`; the
`time.strftime` timestamp is an input. -/
def _get_graph_file_name (storage_dir timeStr graph_id : String) : String :=
  storage_dir ++ "_ID" ++ graph_id ++ "_" ++ timeStr ++ ".png"

/-- Body of `ZabbixWebInterfaceClient.zabbix_api_load_image` (the part
inside the `authorised_required` decorator): merge the query
parameters into the URL, GET it with the stored cookies, optionally
persist the bytes (returned here as an optional filename/content pair
rather than performed), and return the base64-encoded content.  The
environment maps a GET request to the response content bytes. -/
def zabbix_api_load_image (env : WebGet → List Nat) (saved_images : Bool) (timeStr : String)
    (s : WebState) (image_url : YUrl) (query_params : List (String × String))
    (image_id : String) : String × WebGet × Option (String × List Nat) :=
  let u := image_url.with_query query_params
  let req : WebGet := { url := u, cookies := s.cookies }
  let image := env req
  let fileWrite :=
    if saved_images then some (_get_graph_file_name s.storage_dir timeStr image_id, image)
    else none
  (b64encode image, req, fileWrite)

/-- The decorated `zabbix_api_load_image` as callers see it: the body
above wrapped by `authorised_required` over the web client's
authentication primitives (`auto_login=True`, the decorator default).
The body reads but does not change the client state. -/
def zabbix_api_load_image_wrapped (isA : WebState → Bool × WebState)
    (lg : WebState → WebState) (env : WebGet → List Nat) (saved_images : Bool)
    (timeStr : String) (image_url : YUrl) (query_params : List (String × String))
    (image_id : String) (s : WebState) :
    Except Unit (String × WebGet × Option (String × List Nat)) × WebState :=
  authorised_required isA lg
    (fun st => (zabbix_api_load_image env saved_images timeStr st image_url query_params
      image_id, st))
    true s

/-! ## Command layer helpers (commands.py) -/

/-- `WebInterfaceCommandMixin._get_resolution`. -/
def _get_resolution (hours : Nat) : Nat × Nat :=
  let base_width := 400
  let base_height := 200
  let max_width := 1000
  let max_height := 350
  let width := base_width + 200 * hours
  let height := base_height + 50 * hours
  (min width max_width, min height max_height)

/-- `[host["host"] for host in item["hosts"]]`. -/
def hostsExtract : List JVal → Except PyErr (List JVal)
  | [] => .ok []
  | h :: rest =>
    match jget h "host" with
    | .error e => .error e
    | .ok v => (hostsExtract rest).map (fun l => v :: l)

/-- The `for item in raw_items_info["result"]` loop of
`format_items_info`, accumulating the formatted lines. -/
def formatItemsLoop (acc : String) : List JVal → Except PyErr String
  | [] => .ok acc
  | item :: rest =>
    match jget item "lastvalue" with
    | .error e => .error e
    | .ok value =>
      match jget item "hosts" with
      | .error e => .error e
      | .ok hostsv =>
        match pyIter hostsv with
        | .error e => .error e
        | .ok hostItems =>
          match hostsExtract hostItems with
          | .error e => .error e
          | .ok hosts =>
            match pyJoin ", " hosts with
            | .error e => .error e
            | .ok hostsStr =>
              match jget item "name" with
              | .error e => .error e
              | .ok namev =>
                let line := ">>lupa<< <b>" ++ hostsStr ++ "::" ++ pyStr namev ++ "</b> = "
                  ++ (if pyTruthy value then pyStr value else "<i>No data</i>") ++ "\n"
                formatItemsLoop (acc ++ line) rest

/-- The `try` body of `format_items_info`. -/
def format_items_body (raw : JVal) : Except PyErr String :=
  match jget raw "result" with
  | .error e => .error e
  | .ok resv =>
    match pyIter resv with
    | .error e => .error e
    | .ok items => formatItemsLoop "" items

/-- `ZabbixCallableCommandWithArgs.format_items_info`: format the
item.get response; a KeyError anywhere in the body is caught and
turned into a diagnostic string carrying the raw payload, which is
logged at warning level and returned.  The result pairs the returned
string with the warning-level log entries.  (The source also lists
IndexError in the except clause; nothing in the body can raise it.) -/
def format_items_info (raw : JVal) : Except PyErr (String × List String) :=
  match format_items_body raw with
  | .ok s => .ok (s, [])
  | .error (.keyError _) =>
    let emergency := ">>Average<< Request parsing error! Raw data:\n" ++ pyStr raw
    .ok (emergency, [emergency])
  | .error e => .error e

/-- `ZabbixCallableCommandWithArgs._from_ts`: `int(ts)` then the
timestamp rendering of `str(datetime.datetime.fromtimestamp(...))`,
which is timezone dependent and passed in as `dtRender`. -/
def _from_ts (dtRender : Int → String) (ts : JVal) : Except PyErr String :=
  match pyInt ts with
  | .error e => .error e
  | .ok n => .ok (dtRender n)

/-- The `for trigger_info in raw_triggers_info['result']` loop of
`format_triggers_info`. -/
def formatTriggersLoop (dtRender : Int → String) (acc : String) :
    List JVal → Except PyErr String
  | [] => .ok acc
  | t :: rest =>
    match jget t "lastchange" with
    | .error e => .error e
    | .ok lc =>
      match _from_ts dtRender lc with
      | .error e => .error e
      | .ok last_change0 =>
        match jget t "priority" with
        | .error e => .error e
        | .ok priority =>
          match jget t "description" with
          | .error e => .error e
          | .ok description =>
            match jget t "hosts" with
            | .error e => .error e
            | .ok hs =>
              match pyIter hs with
              | .error e => .error e
              | .ok hostItems =>
                match hostsExtract hostItems with
                | .error e => .error e
                | .ok hostVals =>
                  match pyJoin ", " hostVals with
                  | .error e => .error e
                  | .ok hostsStr =>
                    let last_change := ">>clock<< " ++ last_change0
                    let line := "\n\n" ++ last_change ++ "\n>>" ++ pyStr priority
                      ++ "<<<b>" ++ hostsStr ++ "</b>:: " ++ pyStr description
                    formatTriggersLoop dtRender (acc ++ line) rest

/-- The `try` body of `format_triggers_info`. -/
def format_triggers_body (dtRender : Int → String) (raw : JVal) : Except PyErr String :=
  match jget raw "result" with
  | .error e => .error e
  | .ok resv =>
    match pyIter resv with
    | .error e => .error e
    | .ok items => formatTriggersLoop dtRender "" items

/-- `ZabbixCallableCommandWithArgs.format_triggers_info`: format the
trigger.get response; a KeyError in the body is caught and turned into
a diagnostic string carrying the raw payload, logged at warning level
and returned; an empty successful message is replaced by the
no-triggers banner. -/
def format_triggers_info (dtRender : Int → String) (raw : JVal) :
    Except PyErr (String × List String) :=
  match format_triggers_body dtRender raw with
  | .ok s =>
    .ok ((if s == "" then ">>OK<< <i> NO TURNED TRIGGERS </i>\n" else s), [])
  | .error (.keyError _) =>
    let emergency := "Request parsing error! Raw data:\n" ++ pyStr raw
    .ok (emergency, [emergency])
  | .error e => .error e


/-! ## Dictionary lemmas -/

theorem find?_overwrite_self (k1 v1 : String) :
    ∀ (d : List (String × String)), d.any (fun p => p.1 == k1) = true →
      (d.map (fun p => if p.1 == k1 then (k1, v1) else p)).find? (fun p => p.1 == k1)
        = some (k1, v1) := by
  intro d
  induction d with
  | nil => intro h; simp at h
  | cons a t ih =>
    intro h
    by_cases ha : (a.1 == k1) = true
    · simp only [List.map_cons, ha, if_true, List.find?_cons, beq_self_eq_true]
    · have h2 : t.any (fun p => p.1 == k1) = true := by
        simp only [List.any_cons, ha, Bool.false_or] at h
        exact h
      simp only [List.map_cons, ha, if_false, Bool.false_eq_true, List.find?_cons]
      exact ih h2

theorem find?_overwrite_other (k1 v1 k : String) (hk : (k1 == k) = false) :
    ∀ (d : List (String × String)),
      (d.map (fun p => if p.1 == k1 then (k1, v1) else p)).find? (fun p => p.1 == k)
        = d.find? (fun p => p.1 == k) := by
  intro d
  induction d with
  | nil => rfl
  | cons a t ih =>
    by_cases ha : (a.1 == k1) = true
    · have hak : (a.1 == k) = false := by
        have e1 : a.1 = k1 := by simpa using ha
        rw [e1]; exact hk
      simp only [List.map_cons, ha, if_true, List.find?_cons, hk, hak]
      exact ih
    · simp only [List.map_cons, ha, if_false, Bool.false_eq_true, List.find?_cons]
      by_cases hak : (a.1 == k) = true
      · simp only [hak]
      · simp only [Bool.not_eq_true] at hak
        simp only [hak]
        exact ih

theorem dictLookup_insert (d : List (String × String)) (k1 v1 k : String) :
    dictLookup (dictInsert d k1 v1) k = if k1 == k then some v1 else dictLookup d k := by
  unfold dictInsert dictLookup
  by_cases hany : d.any (fun p => p.1 == k1) = true
  · rw [if_pos hany]
    by_cases hk : (k1 == k) = true
    · have hkeq : k1 = k := by simpa using hk
      subst hkeq
      rw [find?_overwrite_self k1 v1 d hany]
      simp [hk]
    · have hkf : (k1 == k) = false := by simpa using hk
      rw [find?_overwrite_other k1 v1 k hkf d]
      simp [hkf]
  · rw [if_neg hany]
    rw [List.find?_append]
    by_cases hk : (k1 == k) = true
    · have hkeq : k1 = k := by simpa using hk
      subst hkeq
      have hnone : d.find? (fun p => p.1 == k1) = none := by
        rw [List.find?_eq_none]
        intro x hx hpx
        exact hany (List.any_eq_true.mpr ⟨x, hx, hpx⟩)
      simp [hnone, List.find?_cons, hk]
    · have hkf : (k1 == k) = false := by simpa using hk
      have hsing : List.find? (fun p => p.1 == k) [(k1, v1)] = none := by
        simp [List.find?_cons, hkf]
      rw [hsing]
      simp [hkf]

theorem dictLookup_foldl (l : List (String × String)) :
    ∀ (d : List (String × String)) (k : String),
      dictLookup (List.foldl (fun d p => dictInsert d p.1 p.2) d l) k
        = match l.reverse.find? (fun p => p.1 == k) with
          | some p => some p.2
          | none => dictLookup d k := by
  induction l with
  | nil => intro d k; rfl
  | cons a t ih =>
    intro d k
    simp only [List.foldl_cons, List.reverse_cons, List.find?_append]
    rw [ih]
    cases hf : t.reverse.find? (fun p => p.1 == k) with
    | some q => simp
    | none =>
      simp only [Option.none_or]
      rw [dictLookup_insert]
      by_cases ha : (a.1 == k) = true
      · have e1 : a.1 = k := by simpa using ha
        simp only [List.find?_cons, ha]
        simp
      · have haf : (a.1 == k) = false := by simpa using ha
        simp only [List.find?_cons, haf, List.find?_nil]
        rw [if_neg (by simp [haf])]

theorem dictLookup_buildDict (l : List (String × String)) (k : String) :
    dictLookup (buildDict l) k
      = (l.reverse.find? (fun p => p.1 == k)).map (fun p => p.2) := by
  unfold buildDict
  rw [dictLookup_foldl]
  cases hf : l.reverse.find? (fun p => p.1 == k) <;> simp [dictLookup]

/-! ## Claims about the alert message parser -/

/-- C5: parsing maps each matched tag to an entry at the lowercased
tag key; when the same lowercased key occurs in several tags the
mapping binds it to the last occurrence in scan order (the reversed
match list decides every lookup, and every matched tag is present);
in particular parsing a text with the tags x: 1 and x: 2 yields x
bound to the string 2. -/
theorem parse_message_lowercases_and_last_wins :
    (∀ (text k : String),
      dictLookup (_parse_message text) k
        = (((scanTags text).map (fun p => (strLower p.1, p.2))).reverse.find?
            (fun p => p.1 == k)).map (fun p => p.2))
    ∧ (∀ (text : String) (p : String × String), p ∈ scanTags text →
        (dictLookup (_parse_message text) (strLower p.1)).isSome = true)
    ∧ dictLookup (_parse_message "[x: 1][x: 2]") "x" = some "2" := by
  refine ⟨?_, ?_, ?_⟩
  · intro text k
    unfold _parse_message
    exact dictLookup_buildDict _ k
  · intro text p hp
    unfold _parse_message
    rw [dictLookup_buildDict]
    have hmap : ∀ (x : Option (String × String)),
        (Option.map (fun p => p.2) x).isSome = x.isSome := by
      intro x; cases x <;> rfl
    rw [hmap, List.find?_isSome]
    refine ⟨(strLower p.1, p.2), ?_, ?_⟩
    · rw [List.mem_reverse]
      exact List.mem_map.mpr ⟨p, hp, rfl⟩
    · simp
  · rfl

/-- C5 witness: the membership conjunct applied to the duplicate-tag
example, together with the last-occurrence value there. -/
theorem parse_message_lowercases_and_last_wins_witness :
    (dictLookup (_parse_message "[x: 1][x: 2]") (strLower "x")).isSome = true := by
  exact parse_message_lowercases_and_last_wins.2.1 "[x: 1][x: 2]" ("x", "1") (by decide)

/-- C6: on a parsed message, an attribute lookup of a key bound in the
mapping returns its value and leaves the mapping unchanged, and a
lookup of an absent key returns the empty string; the accessor is a
total function, so no lookup can fail. -/
theorem msg_lookup_defaults_to_empty :
    ∀ (text k : String),
      (∀ v, dictLookup (_parse_message text) k = some v →
        msgGetattr (_parse_message text) k = (v, _parse_message text))
      ∧ (dictLookup (_parse_message text) k = none →
        (msgGetattr (_parse_message text) k).1 = "") := by
  intro text k
  constructor
  · intro v hv
    unfold msgGetattr
    rw [hv]
  · intro hn
    unfold msgGetattr
    rw [hn]

/-- C6 witness: on the parsed text the bound key x yields 1 and the
absent key rabbit_queue yields the empty string. -/
theorem msg_lookup_defaults_to_empty_witness :
    msgGetattr (_parse_message "[x: 1]") "x" = ("1", _parse_message "[x: 1]")
    ∧ (msgGetattr (_parse_message "[x: 1]") "rabbit_queue").1 = "" := by
  constructor
  · exact (msg_lookup_defaults_to_empty "[x: 1]" "x").1 "1" (by rfl)
  · exact (msg_lookup_defaults_to_empty "[x: 1]" "rabbit_queue").2 (by rfl)

/-- C10: an attribute lookup of a key absent from a parsed message
inserts the key with the empty-string value as a side effect — the
returned mapping is the old one with the new entry appended, the key
afterwards answers membership tests and looks up to the empty string,
and the entries of all other keys are unchanged. -/
theorem msg_default_lookup_inserts_key :
    ∀ (text k : String), dictLookup (_parse_message text) k = none →
      msgGetattr (_parse_message text) k = ("", _parse_message text ++ [(k, "")])
      ∧ dictLookup (_parse_message text ++ [(k, "")]) k = some ""
      ∧ (_parse_message text ++ [(k, "")]).any (fun p => p.1 == k) = true
      ∧ ∀ k2, k2 ≠ k →
          dictLookup (_parse_message text ++ [(k, "")]) k2
            = dictLookup (_parse_message text) k2 := by
  intro text k hn
  have hfind : (_parse_message text).find? (fun p => p.1 == k) = none := by
    unfold dictLookup at hn
    exact Option.map_eq_none.mp hn
  refine ⟨?_, ?_, ?_, ?_⟩
  · unfold msgGetattr
    rw [hn]
  · unfold dictLookup
    rw [List.find?_append, hfind]
    simp [List.find?_cons]
  · rw [List.any_append]
    simp
  · intro k2 hk2
    unfold dictLookup
    rw [List.find?_append]
    have hsing : List.find? (fun p => p.1 == k2) [(k, "")] = none := by
      have : (k == k2) = false := by
        simp only [beq_eq_false_iff_ne, ne_eq]
        exact fun h => hk2 h.symm
      simp [List.find?_cons, this]
    rw [hsing]
    cases hf : (_parse_message text).find? (fun p => p.1 == k2) <;> simp

/-- C10 witness: looking up the absent key y on the parsed text
inserts y with the empty value and leaves x untouched. -/
theorem msg_default_lookup_inserts_key_witness :
    msgGetattr (_parse_message "[x: 1]") "y"
      = ("", _parse_message "[x: 1]" ++ [("y", "")])
    ∧ dictLookup (_parse_message "[x: 1]" ++ [("y", "")]) "y" = some ""
    ∧ dictLookup (_parse_message "[x: 1]" ++ [("y", "")]) "x"
      = dictLookup (_parse_message "[x: 1]") "x" := by
  have h := msg_default_lookup_inserts_key "[x: 1]" "y" (by rfl)
  exact ⟨h.1, h.2.1, h.2.2.2 "x" (by decide)⟩

/-! ## Claims about the session wrapper and the resolution function -/

/-- C1: the wrapper first checks `is_authorised`; when the check holds
it performs zero login attempts and invokes the wrapped call; when it
fails it performs exactly one login attempt, re-checks, raises
AuthorisedException without invoking the wrapped call when the
re-check still fails, and otherwise invokes the wrapped call — never
more than one login attempt per invocation. -/
theorem authorised_required_single_login {σ ρ : Type} (isA : σ → Bool × σ) (lg : σ → σ)
    (mth : σ → ρ × σ) (s : σ) :
    ((authTraceRun isA lg mth s).2.2.count AuthEvent.loginEv ≤ 1)
    ∧ ((isA s).1 = true →
        authTraceRun isA lg mth s
          = (.ok (mth (isA s).2).1, ((mth (isA s).2).2, [AuthEvent.callEv])))
    ∧ ((isA s).1 = false → (isA (lg (isA s).2)).1 = true →
        authTraceRun isA lg mth s
          = (.ok (mth (isA (lg (isA s).2)).2).1,
             ((mth (isA (lg (isA s).2)).2).2, [AuthEvent.loginEv, AuthEvent.callEv])))
    ∧ ((isA s).1 = false → (isA (lg (isA s).2)).1 = false →
        authTraceRun isA lg mth s
          = (.error (), ((isA (lg (isA s).2)).2, [AuthEvent.loginEv]))) := by
  have hrun : authTraceRun isA lg mth s
      = if (isA s).1 then
          (.ok (mth (isA s).2).1, ((mth (isA s).2).2, [AuthEvent.callEv]))
        else if (isA (lg (isA s).2)).1 then
          (.ok (mth (isA (lg (isA s).2)).2).1,
           ((mth (isA (lg (isA s).2)).2).2, [AuthEvent.loginEv, AuthEvent.callEv]))
        else (.error (), ((isA (lg (isA s).2)).2, [AuthEvent.loginEv])) := by
    unfold authTraceRun authorised_required
    cases h1 : (isA s).1 <;> simp only [h1]
    · cases h2 : (isA (lg (isA s).2)).1 <;> simp [h2, List.nil_append]
    · simp
  refine ⟨?_, ?_, ?_, ?_⟩
  · rw [hrun]
    cases h1 : (isA s).1
    · cases h2 : (isA (lg (isA s).2)).1 <;> simp [List.count_cons, List.count_nil]
    · simp [List.count_cons, List.count_nil]
  · intro h1; rw [hrun, h1]; simp
  · intro h1 h2; rw [hrun, h1, h2]; simp
  · intro h1 h2; rw [hrun, h1, h2]; simp

/-- C1 witness: concrete primitives over a Boolean client state, run
from the unauthenticated state with a login that succeeds, and from
the authenticated state. -/
theorem authorised_required_single_login_witness :
    authTraceRun (fun b : Bool => (b, b)) (fun _ => true) (fun b => (7, b)) false
      = (.ok 7, (true, [AuthEvent.loginEv, AuthEvent.callEv]))
    ∧ authTraceRun (fun b : Bool => (b, b)) (fun _ => true) (fun b => (7, b)) true
      = (.ok 7, (true, [AuthEvent.callEv])) := by
  constructor
  · exact (authorised_required_single_login (fun b : Bool => (b, b)) (fun _ => true)
      (fun b => (7, b)) false).2.2.1 rfl rfl
  · exact (authorised_required_single_login (fun b : Bool => (b, b)) (fun _ => true)
      (fun b => (7, b)) true).2.1 rfl

/-- C7: the resolution of a period of h hours is the pair
(min (400 + 200 h) 1000, min (200 + 50 h) 350); period 1 gives
600 by 250, period 4 caps 1200 by 400 to 1000 by 350, and both
dimensions are monotone in the period. -/
theorem get_resolution_formula_and_monotone :
    (∀ h : Nat, _get_resolution h = (min (400 + 200 * h) 1000, min (200 + 50 * h) 350))
    ∧ _get_resolution 1 = (600, 250)
    ∧ _get_resolution 4 = (1000, 350)
    ∧ (∀ h1 h2 : Nat, h1 ≤ h2 →
        (_get_resolution h1).1 ≤ (_get_resolution h2).1
        ∧ (_get_resolution h1).2 ≤ (_get_resolution h2).2) := by
  refine ⟨fun h => rfl, rfl, rfl, ?_⟩
  intro h1 h2 hle
  constructor
  · exact min_le_min (by omega) le_rfl
  · exact min_le_min (by omega) le_rfl

/-- C7 witness: monotonicity applied between periods 1 and 4. -/
theorem get_resolution_formula_and_monotone_witness :
    (_get_resolution 1).1 ≤ (_get_resolution 4).1
    ∧ (_get_resolution 1).2 ≤ (_get_resolution 4).2 := by
  exact get_resolution_formula_and_monotone.2.2.2 1 4 (by decide)

/-! ## Lemmas about the API client -/

theorem post_noh_sent (env : ZbxEnv) (req : JVal) (s : ApiState) :
    (post_noh env req s).2.sent = s.sent ++ [req] := by
  cases hp : pyIn "error" (env s.sent req) with
  | error e => simp [post_noh, hp]
  | ok b =>
    cases b with
    | false => simp [post_noh, hp]
    | true =>
      cases hg : jget (env s.sent req) "error" with
      | error e => simp [post_noh, hp, hg]
      | ok err => simp [post_noh, hp, hg]

theorem zabbix_login_sent (env : ZbxEnv) (cfg : ApiCfg) (s : ApiState) :
    (zabbix_login env cfg s).2.sent
      = s.sent ++ [loginRequest cfg.username cfg.password] := by
  have hs := post_noh_sent env (loginRequest cfg.username cfg.password) s
  cases hp : post_noh env (loginRequest cfg.username cfg.password) s with
  | mk r s1 =>
    rw [hp] at hs
    have hs1 : s1.sent = s.sent ++ [loginRequest cfg.username cfg.password] := hs
    cases r with
    | error e => simp [zabbix_login, hp, hs1]
    | ok body =>
      cases hg : jget body "result" with
      | ok v => simp [zabbix_login, hp, hg, set_auth, hs1]
      | error e =>
        cases e with
        | keyError k => simp [zabbix_login, hp, hg, set_auth, hs1]
        | typeError => simp [zabbix_login, hp, hg, hs1]
        | valueError => simp [zabbix_login, hp, hg, hs1]

/-- The general entry point at `error_handling=False` coincides with
the non-handling variant used inside the recovery path. -/
theorem post_to_zabbix_api_false_eq_noh (env : ZbxEnv) (cfg : ApiCfg) (req : JVal)
    (s : ApiState) : post_to_zabbix_api env cfg false req s = post_noh env req s := by
  cases hp : pyIn "error" (env s.sent req) with
  | error e => simp [post_to_zabbix_api, post_noh, hp]
  | ok b =>
    cases b with
    | false => simp [post_to_zabbix_api, post_noh, hp]
    | true =>
      cases hg : jget (env s.sent req) "error" with
      | error e => simp [post_to_zabbix_api, post_noh, hp, hg]
      | ok err => simp [post_to_zabbix_api, post_noh, hp, hg]

theorem check_auth_sets_auth (env : ZbxEnv) (s : ApiState) (a : Option JVal)
    (s1 : ApiState) (hc : _check_authentication env s = (.ok a, s1)) : s1.auth = a := by
  cases hp : post_noh env (checkAuthRequest (pyStrOpt s.auth)) s with
  | mk r s2 =>
    cases r with
    | error e => simp [_check_authentication, hp] at hc
    | ok body =>
      cases hg : jget body "result" with
      | ok r2 =>
        cases hg2 : jget r2 "sessionid" with
        | ok v =>
          simp only [_check_authentication, hp, hg, hg2] at hc
          injection hc with h1 h2
          injection h1 with h3
          rw [← h2, ← h3]
          rfl
        | error e =>
          cases e with
          | keyError k =>
            simp only [_check_authentication, hp, hg, hg2] at hc
            injection hc with h1 h2
            injection h1 with h3
            rw [← h2, ← h3]
            rfl
          | typeError => simp [_check_authentication, hp, hg, hg2] at hc
          | valueError => simp [_check_authentication, hp, hg, hg2] at hc
      | error e =>
        cases e with
        | keyError k =>
          simp only [_check_authentication, hp, hg] at hc
          injection hc with h1 h2
          injection h1 with h3
          rw [← h2, ← h3]
          rfl
        | typeError => simp [_check_authentication, hp, hg] at hc
        | valueError => simp [_check_authentication, hp, hg] at hc

/-! ## Claims about the API client -/

/-- C3 (amended): `is_authorised` returns true exactly when the
sessionid extracted from the backend's check response is truthy
(present and non-empty).  `_check_authentication` stores the backend's
returned token into `self.auth` before `is_authorised` compares, so
the comparison `self.auth == auth` is against the freshly overwritten
token — trivially true — and not against the token stored before the
check. -/
theorem is_authorised_truthy_of_backend_token (env : ZbxEnv) (s : ApiState) :
    is_authorised env s
      = (match _check_authentication env s with
         | (.ok a, s1) => (.ok (pyTruthyOpt a), s1)
         | (.error e, s1) => (.error e, s1)) := by
  cases hc : _check_authentication env s with
  | mk r s1 =>
    cases r with
    | error e => simp [is_authorised, hc]
    | ok a =>
      have hauth : s1.auth = a := check_auth_sets_auth env s a s1 hc
      simp [is_authorised, hc, hauth, jeqOpt_refl]

/-- A backend whose session check answers with a fresh sessionid that
differs from the stored token. -/
def c3Env : ZbxEnv := fun _ _ => .jobj [("result", .jobj [("sessionid", .jstr "b")])]

/-- The client state before the check, holding the stored token a. -/
def c3State : ApiState := { auth := some (.jstr "a"), sent := [], warnings := [] }

/-- C3 counterexample: with stored token a the backend returns the
different token b, yet `is_authorised` answers true — refuting the
claim that the result is true only when the returned token equals the
token stored before the check, and false on a mismatch. -/
theorem is_authorised_mismatch_counterexample :
    (is_authorised c3Env c3State).1 = .ok true
    ∧ (_check_authentication c3Env c3State).1 = .ok (some (.jstr "b"))
    ∧ c3State.auth = some (.jstr "a")
    ∧ some (JVal.jstr "a") ≠ some (JVal.jstr "b") := by
  refine ⟨rfl, rfl, rfl, ?_⟩
  intro h
  injection h with h1
  injection h1 with h2
  exact absurd h2 (by decide)

/-- C2 (amended): with error handling enabled, an API error whose code
is not in the recovery table is logged at warning level and then the
recovery dispatch raises a KeyError on the unmapped code; the body is
not returned, no recovery action runs, the stored token is untouched
and no further request is issued. -/
theorem post_unknown_code_raises (env : ZbxEnv) (cfg : ApiCfg) (req : JVal) (s : ApiState)
    (err : JVal) (n : Int)
    (h1 : pyIn "error" (env s.sent req) = .ok true)
    (h2 : jget (env s.sent req) "error" = .ok err)
    (h3 : jget err "code" = .ok (.jnum n))
    (h4 : n ≠ -32602) (h5 : n ≠ -32500) :
    post_to_zabbix_api env cfg true req s
      = (.error (.keyError (.jnum n)),
         { s with sent := s.sent ++ [req], warnings := s.warnings ++ [pyStr err] }) := by
  simp only [post_to_zabbix_api, h1, h2, if_true]
  simp only [handle_error_response_form_zabbix, h3]
  rw [if_neg h4, if_neg h5]

/-- The backend answering every request with the unmapped error code -1. -/
def c2Env : ZbxEnv := fun _ _ =>
  .jobj [("error", .jobj [("code", .jnum (-1)), ("message", .jstr "x")])]

/-- C2 counterexample: on the error response with unknown code -1,
`post_to_zabbix_api` with error handling enabled raises KeyError
instead of returning the response body — refuting the claim that an
unmapped code is logged and the body returned with no exception. -/
theorem post_unknown_code_counterexample :
    (post_to_zabbix_api c2Env { username := "u", password := "p" } true (.jobj [])
      { auth := none, sent := [], warnings := [] }).1
      = .error (.keyError (.jnum (-1))) := by
  rfl

/-- C2 witness: the amended theorem applied to the concrete unknown
code -1 backend. -/
theorem post_unknown_code_raises_witness :
    post_to_zabbix_api c2Env { username := "u", password := "p" } true (.jobj [])
      { auth := none, sent := [], warnings := [] }
      = (.error (.keyError (.jnum (-1))),
         { auth := none, sent := [.jobj []],
           warnings := ["\x7b'code': -1, 'message': 'x'\x7d"] }) := by
  have h := post_unknown_code_raises c2Env { username := "u", password := "p" } (.jobj [])
    { auth := none, sent := [], warnings := [] }
    (.jobj [("code", .jnum (-1)), ("message", .jstr "x")]) (-1)
    rfl rfl rfl (by decide) (by decide)
  exact h

/-- C4: dispatch of the two codes in the recovery table.  Code -32602
(session terminated) triggers exactly one re-login: whatever the
backend then answers — including the same error again — the request
trace grows by the original request and one login request only,
because the login call posts with error handling disabled and cannot
recurse.  Code -32500 (credentials incorrect) clears the stored token
to None, returns the original body, and issues no further request. -/
theorem known_error_codes_recovery (env : ZbxEnv) (cfg : ApiCfg) (req : JVal)
    (s : ApiState) (err : JVal)
    (h1 : pyIn "error" (env s.sent req) = .ok true)
    (h2 : jget (env s.sent req) "error" = .ok err) :
    (jget err "code" = .ok (.jnum (-32602)) →
        (post_to_zabbix_api env cfg true req s).2.sent
          = s.sent ++ [req, loginRequest cfg.username cfg.password])
    ∧ (jget err "code" = .ok (.jnum (-32500)) →
        post_to_zabbix_api env cfg true req s
          = (.ok (env s.sent req),
             { s with auth := none, sent := s.sent ++ [req],
                      warnings := s.warnings ++ [pyStr err] })) := by
  constructor
  · intro h3
    simp only [post_to_zabbix_api, h1, h2, if_true]
    simp only [handle_error_response_form_zabbix, h3, if_true]
    set s2 : ApiState :=
      { s with sent := s.sent ++ [req], warnings := s.warnings ++ [pyStr err] } with hs2
    have hsent := zabbix_login_sent env cfg s2
    cases hl : zabbix_login env cfg s2 with
    | mk r s3 =>
      rw [hl] at hsent
      have hsent3 : s3.sent = s2.sent ++ [loginRequest cfg.username cfg.password] := hsent
      cases r with
      | error e => simpa [hs2, List.append_assoc] using hsent3
      | ok u => simpa [hs2, List.append_assoc] using hsent3
  · intro h3
    simp only [post_to_zabbix_api, h1, h2, if_true]
    simp only [handle_error_response_form_zabbix, h3, if_true]
    simp [set_auth]

/-- A backend answering everything, the re-login included, with the
session-terminated error -32602. -/
def c4Env62 : ZbxEnv := fun _ _ =>
  .jobj [("error", .jobj [("code", .jnum (-32602)), ("message", .jstr "m")])]

/-- A backend answering with the incorrect-credentials error -32500. -/
def c4Env00 : ZbxEnv := fun _ _ =>
  .jobj [("error", .jobj [("code", .jnum (-32500)), ("message", .jstr "m")])]

/-- C4 witness: under the always--32602 backend one protected call
issues exactly the original request and one login request (the login
response being the same error does not recurse), and under the -32500
backend the token is cleared with no retry. -/
theorem known_error_codes_recovery_witness :
    (post_to_zabbix_api c4Env62 { username := "u", password := "p" } true (.jobj [])
        { auth := some (.jstr "t"), sent := [], warnings := [] }).2.sent
      = [.jobj [], loginRequest "u" "p"]
    ∧ post_to_zabbix_api c4Env00 { username := "u", password := "p" } true (.jobj [])
        { auth := some (.jstr "t"), sent := [], warnings := [] }
      = (.ok (.jobj [("error", .jobj [("code", .jnum (-32500)), ("message", .jstr "m")])]),
         { auth := none, sent := [.jobj []],
           warnings := ["\x7b'code': -32500, 'message': 'm'\x7d"] }) := by
  constructor
  · exact (known_error_codes_recovery c4Env62 { username := "u", password := "p" }
      (.jobj []) { auth := some (.jstr "t"), sent := [], warnings := [] }
      (.jobj [("code", .jnum (-32602)), ("message", .jstr "m")]) rfl rfl).1 rfl
  · exact (known_error_codes_recovery c4Env00 { username := "u", password := "p" }
      (.jobj []) { auth := some (.jstr "t"), sent := [], warnings := [] }
      (.jobj [("code", .jnum (-32500)), ("message", .jstr "m")]) rfl rfl).2 rfl

/-! ## Claims about the formatters and the image loader -/

/-- C8: when the item or trigger formatter body fails with a KeyError
(a missing expected key such as the top-level result), the formatter
catches it and returns a diagnostic string that ends with the raw
payload rendered verbatim, logging exactly that string at warning
level; no exception reaches the caller. -/
theorem formatters_recover_missing_key :
    (∀ (raw k : JVal), format_items_body raw = .error (.keyError k) →
      format_items_info raw
        = .ok (">>Average<< Request parsing error! Raw data:\n" ++ pyStr raw,
               [">>Average<< Request parsing error! Raw data:\n" ++ pyStr raw])
      ∧ (pyStr raw).toList
          <:+ (">>Average<< Request parsing error! Raw data:\n" ++ pyStr raw).toList)
    ∧ (∀ (dtRender : Int → String) (raw k : JVal),
        format_triggers_body dtRender raw = .error (.keyError k) →
        format_triggers_info dtRender raw
          = .ok ("Request parsing error! Raw data:\n" ++ pyStr raw,
                 ["Request parsing error! Raw data:\n" ++ pyStr raw])
        ∧ (pyStr raw).toList
            <:+ ("Request parsing error! Raw data:\n" ++ pyStr raw).toList) := by
  constructor
  · intro raw k h
    constructor
    · simp [format_items_info, h]
    · have hsplit : (">>Average<< Request parsing error! Raw data:\n" ++ pyStr raw).toList
          = (">>Average<< Request parsing error! Raw data:\n").toList ++ (pyStr raw).toList := by
        simp [String.toList, String.data_append]
      rw [hsplit]
      exact List.suffix_append _ _
  · intro dtRender raw k h
    constructor
    · simp [format_triggers_info, h]
    · have hsplit : ("Request parsing error! Raw data:\n" ++ pyStr raw).toList
          = ("Request parsing error! Raw data:\n").toList ++ (pyStr raw).toList := by
        simp [String.toList, String.data_append]
      rw [hsplit]
      exact List.suffix_append _ _

/-- C8 witness: the empty-object response misses the result key; both
formatters return the diagnostic string with the rendered payload and
log it, raising nothing. -/
theorem formatters_recover_missing_key_witness :
    format_items_info (.jobj [])
      = .ok (">>Average<< Request parsing error! Raw data:\n" ++ pyStr (.jobj []),
             [">>Average<< Request parsing error! Raw data:\n" ++ pyStr (.jobj [])])
    ∧ format_triggers_info (fun _ => "ts") (.jobj [])
      = .ok ("Request parsing error! Raw data:\n" ++ pyStr (.jobj []),
             ["Request parsing error! Raw data:\n" ++ pyStr (.jobj [])]) := by
  constructor
  · exact (formatters_recover_missing_key.1 (.jobj []) (.jstr "result") rfl).1
  · exact (formatters_recover_missing_key.2 (fun _ => "ts") (.jobj []) (.jstr "result") rfl).1

/-- A backend delivering the three bytes 0, 1, 2 as image content. -/
def c9Env : WebGet → List Nat := fun _ => [0, 1, 2]

/-- C9 counterexample: on the three-byte response 0, 1, 2 the image
loader returns the base64 text AAEC, whose character codes are not the
raw response bytes — refuting the claim that the raw body bytes are
returned to the caller. -/
theorem load_image_raw_bytes_counterexample :
    (zabbix_api_load_image c9Env false "ts"
        { cookies := [("zbx_sessionid", "c")], storage_dir := "d" }
        { path := "chart2.php", query := [] } [("graphid", "7")] "7").1 = "AAEC"
    ∧ "AAEC".toList.map Char.toNat ≠ [0, 1, 2] := by
  exact ⟨rfl, by decide⟩

/-- C9 (amended): once the session is ensured the wrapper invokes the
body on the checked state, and the body issues one GET whose URL is
the image URL with the query parameters merged in and whose cookies
are the stored cookie jar, returning the base64 encoding of the raw
response body (not the raw bytes themselves). -/
theorem load_image_get_and_base64 (isA : WebState → Bool × WebState)
    (lg : WebState → WebState) (env : WebGet → List Nat) (saved : Bool) (timeStr : String)
    (url : YUrl) (qp : List (String × String)) (img : String) (s : WebState) :
    ((isA s).1 = true →
      zabbix_api_load_image_wrapped isA lg env saved timeStr url qp img s
        = (.ok (zabbix_api_load_image env saved timeStr (isA s).2 url qp img), (isA s).2))
    ∧ (∀ st : WebState,
        (zabbix_api_load_image env saved timeStr st url qp img).2.1
          = { url := url.with_query qp, cookies := st.cookies }
        ∧ (zabbix_api_load_image env saved timeStr st url qp img).1
          = b64encode (env { url := url.with_query qp, cookies := st.cookies })) := by
  constructor
  · intro h1
    cases hA : isA s with
    | mk b s1 =>
      have hb : b = true := by rw [hA] at h1; exact h1
      subst hb
      simp [zabbix_api_load_image_wrapped, authorised_required, hA]
  · intro st
    exact ⟨rfl, rfl⟩

/-- C9 witness: with an already authenticated session the wrapped call
returns the base64 text AAEC of the three-byte body together with the
GET request carrying the merged query and the stored cookie. -/
theorem load_image_get_and_base64_witness :
    zabbix_api_load_image_wrapped (fun s : WebState => (true, s)) (fun s => s) c9Env false
        "ts" { path := "chart2.php", query := [] } [("graphid", "7")] "7"
        { cookies := [("zbx_sessionid", "c")], storage_dir := "d" }
      = (.ok ("AAEC",
          { url := { path := "chart2.php", query := [("graphid", "7")] },
            cookies := [("zbx_sessionid", "c")] }, none),
         { cookies := [("zbx_sessionid", "c")], storage_dir := "d" }) := by
  exact (load_image_get_and_base64 (fun s : WebState => (true, s)) (fun s => s) c9Env
    false "ts" { path := "chart2.php", query := [] } [("graphid", "7")] "7"
    { cookies := [("zbx_sessionid", "c")], storage_dir := "d" }).1 rfl
